import Mathlib

/-!
Verification development for the `ask_clarification` tool of the
`clarify-mcp` repository (source: `src/hitl_server.py`).

The whole program is one async tool function. Its pure logic is embedded
shallowly below:

* `displayPrompt` embeds lines 91-94 (building the message shown to the
  human, numbering the choices);
* `PyValue`, `pyStr`, `pyRepr`, `pyGetAttr`, `pyDictGet` model the dynamic
  Python values the elicitation channel may return, together with the
  `str()` conversion and attribute / dict lookup used by the code
  (`str()` of an object without a custom repr prints an address; that
  unspecified text is modelled by a fixed placeholder);
* `extractFromData`, `extractDirect`, `extractAnswer` embed lines 114-141
  (pulling the answer text out of the response shape);
* `resolveNumeric`, `resolveText`, `resolveAnswer` embed lines 144-163
  (coercing a numeric selection or a case-insensitive match back onto the
  choice list);
* `askClarification` embeds the whole call: the channel is a function from
  the display prompt to an outcome (timeout, failure, or a result value),
  mirroring `asyncio.wait_for(ctx.elicit(...), timeout=60.0)` and the two
  `except` arms at lines 103-112.

Machine-level caveats of the model: Python string predicates
(`str.isdigit`, `str.lower`, whitespace classes) are modelled on their
ASCII behaviour; `int()` parsing of non-ASCII decimal digits is out of
scope. Exceptions inside the extraction `try` blocks cannot arise in the
model because every modelled conversion is total, exactly as `str()`,
`getattr` with default, and `dict.get` are total on the modelled shapes.
-/

/-- Python whitespace class used by `str.strip()` and `str.split()`
(ASCII part): space, tab, newline, carriage return, vertical tab,
form feed. -/
def isSpace (c : Char) : Bool :=
  c == ' ' || c == '\t' || c == '\n' || c == '\r' || c == '\x0b' || c == '\x0c'

/-- Embedding of Python `s.strip()`: drop whitespace from both ends. -/
def pyStrip (s : String) : String :=
  String.mk (List.rdropWhile isSpace (List.dropWhile isSpace s.data))

/-- Accumulator pass behind `pySplitTokens`: collect maximal non-space
runs, discarding separators. -/
def splitWordsAux : List Char → List Char → List String
  | [], acc => if acc.isEmpty then [] else [String.mk acc.reverse]
  | c :: cs, acc =>
      if isSpace c then
        if acc.isEmpty then splitWordsAux cs []
        else String.mk acc.reverse :: splitWordsAux cs []
      else splitWordsAux cs (c :: acc)

/-- Embedding of Python `s.split()` with no separator: whitespace-delimited
tokens, empty pieces discarded. -/
def pySplitTokens (s : String) : List String :=
  splitWordsAux s.data []

/-- Line 149: `raw.split()[0]`, with the `IndexError` on an all-whitespace
string modelled as `none` (the surrounding `except` swallows it). -/
def firstToken (raw : String) : Option String :=
  (pySplitTokens raw).head?

/-- The trailing characters stripped at line 149: `rstrip(").:]")`. -/
def isTrailPunct (c : Char) : Bool :=
  c == ')' || c == '.' || c == ':' || c == ']'

/-- Embedding of `token.rstrip(").:]")`. -/
def rstripPunct (s : String) : String :=
  String.mk (List.rdropWhile isTrailPunct s.data)

/-- ASCII decimal digit test, the class accepted by both `str.isdigit`
and `int()` in the ASCII model. -/
def charIsDigit (c : Char) : Bool :=
  48 ≤ c.toNat && c.toNat ≤ 57

/-- Accumulator pass of decimal parsing. -/
def parseDigitsAux : List Char → Nat → Nat
  | [], n => n
  | c :: cs, n => parseDigitsAux cs (n * 10 + (c.toNat - 48))

/-- Embedding of `token.isdigit()` followed by `int(token)`: `some` exactly
when the string is non-empty and all decimal digits. -/
def parseIndex (s : String) : Option Nat :=
  if !s.data.isEmpty && s.data.all charIsDigit then some (parseDigitsAux s.data 0)
  else none

/-- ASCII lower-casing of one character, as `str.lower` acts on ASCII. -/
def lowerChar (c : Char) : Char :=
  if 65 ≤ c.toNat && c.toNat ≤ 90 then Char.ofNat (c.toNat + 32) else c

/-- Embedding of Python `s.lower()` (ASCII part). -/
def pyLower (s : String) : String :=
  String.mk (s.data.map lowerChar)

/-- Dynamic Python values the elicitation channel may hand back: `None`,
strings, ints, bools, dicts with string keys, and attribute-bearing
objects (dataclass-like results such as FastMCP elicitation results). -/
inductive PyValue : Type where
  | vnone : PyValue
  | vstr : String → PyValue
  | vint : Int → PyValue
  | vbool : Bool → PyValue
  | vdict : List (String × PyValue) → PyValue
  | vobj : List (String × PyValue) → PyValue

/-- A single-quote character, written via its code point to keep repr
strings readable. -/
def squote : String := String.singleton (Char.ofNat 39)

/-- Placeholder for the unspecified `str()` text of a plain object
(CPython prints a type name and an address there; the exact text is not
part of any claim). -/
def objText : String := "<object>"

mutual

/-- Embedding of Python `repr` on the modelled values (the part of its
behaviour used by `str` on containers). String escaping inside repr is
not modelled; the claims only use unescaped entries. -/
def pyRepr : PyValue → String
  | PyValue.vnone => "None"
  | PyValue.vstr s => squote ++ s ++ squote
  | PyValue.vint n => toString n
  | PyValue.vbool b => if b then "True" else "False"
  | PyValue.vdict es => "\x7b" ++ pyReprEntries es ++ "\x7d"
  | PyValue.vobj _ => objText

/-- Comma-separated `repr` of dict entries, as CPython prints them. -/
def pyReprEntries : List (String × PyValue) → String
  | [] => ""
  | [(k, v)] => squote ++ k ++ squote ++ ": " ++ pyRepr v
  | (k, v) :: e :: es =>
      squote ++ k ++ squote ++ ": " ++ pyRepr v ++ ", " ++ pyReprEntries (e :: es)

end

/-- Embedding of Python `str()`: identity on strings, `repr`-like
otherwise. -/
def pyStr : PyValue → String
  | PyValue.vstr s => s
  | v => pyRepr v

/-- Embedding of `getattr(v, name, None)` restricted to the modelled
shapes: only `vobj` carries attributes; dicts, strings and scalars do not
expose `action`, `data` or `answer` attributes. -/
def pyGetAttr (v : PyValue) (name : String) : Option PyValue :=
  match v with
  | PyValue.vobj attrs => (attrs.find? (fun a => a.1 == name)).map Prod.snd
  | _ => none

/-- Embedding of dict key lookup (`d.get(k)` / `k in d` / `d[k]`). -/
def pyDictGet (es : List (String × PyValue)) (k : String) : Option PyValue :=
  (es.find? (fun e => e.1 == k)).map Prod.snd

/-- Line 119: the `action == "accept"` test on the attribute value. -/
def isAccept : PyValue → Bool
  | PyValue.vstr s => s == "accept"
  | _ => false

/-- The `data is not None` test at line 119 (an absent attribute defaults
to `None`). -/
def isNoneVal : PyValue → Bool
  | PyValue.vnone => true
  | _ => false

/-- Lines 120-129: extraction from the `data` payload of an accepted
response. The dict branch embeds
`str(data.get("answer", "")).strip() or str(data).strip()`:
Python `or` keeps the left side only when it is a non-empty string. -/
def extractFromData (data : PyValue) : String :=
  match pyGetAttr data "answer" with
  | some a => pyStrip (pyStr a)
  | none =>
    match data with
    | PyValue.vdict es =>
        let fromKey := pyStrip (pyStr ((pyDictGet es "answer").getD (PyValue.vstr "")))
        if fromKey.isEmpty then pyStrip (pyStr data) else fromKey
    | _ => pyStrip (pyStr data)

/-- Lines 130-141: direct extraction from the raw result when the
action/data contract does not hold. -/
def extractDirect (result : PyValue) : String :=
  match pyGetAttr result "answer" with
  | some a => pyStrip (pyStr a)
  | none =>
    match result with
    | PyValue.vdict es =>
        match pyDictGet es "answer" with
        | some a => pyStrip (pyStr a)
        | none => pyStrip (pyStr result)
    | _ => pyStrip (pyStr result)

/-- Lines 114-141: full answer extraction from the channel result. -/
def extractAnswer (result : PyValue) : String :=
  let action := (pyGetAttr result "action").getD PyValue.vnone
  let data := (pyGetAttr result "data").getD PyValue.vnone
  if isAccept action && !(isNoneVal data) then extractFromData data
  else extractDirect result

/-- Lines 147-155: numeric selection. Take the first whitespace token of
the trimmed answer, strip trailing `)` `.` `:` `]`, and if what remains
is a non-empty digit string whose value is in `[1, len(choices)]`, select
the corresponding choice. -/
def resolveNumeric (choices : List String) (raw : String) : Option String :=
  match firstToken raw with
  | none => none
  | some tok =>
    match parseIndex (rstripPunct tok) with
    | none => none
    | some idx =>
        if 1 ≤ idx ∧ idx ≤ choices.length then choices.get? (idx - 1) else none

/-- Lines 156-160: first choice equal to the trimmed answer under
case-insensitive comparison. -/
def resolveText (choices : List String) (raw : String) : Option String :=
  choices.find? (fun c => pyLower raw == pyLower c)

/-- Lines 144-163: resolution of the extracted answer against the choice
list. An empty list models both `choices=None` and `choices=[]`, which the
`if choices` guard treats alike. On no match the extracted answer is
returned as it was. -/
def resolveAnswer (choices : List String) (answer : String) : String :=
  if choices.isEmpty then answer
  else
    let raw := pyStrip answer
    match resolveNumeric choices raw with
    | some s => s
    | none =>
      match resolveText choices raw with
      | some s => s
      | none => answer

/-- Lines 91-94: the message shown to the human. With a non-empty choice
list, the prompt is followed by a blank line, the `Options:` header, one
`<i+1>) <choice>` line per choice, and the typing instruction. -/
def displayPrompt (prompt : String) (choices : List String) : String :=
  if choices.isEmpty then prompt
  else
    prompt ++ "\n\nOptions:\n"
      ++ String.intercalate "\n"
           (choices.enum.map (fun p => toString (p.1 + 1) ++ ") " ++ p.2))
      ++ "\n(Type the value or its number)"

/-- The JSON result of line 165. -/
structure ClarificationResult : Type where
  question : String
  answer : String
deriving DecidableEq, Repr

/-- The two error kinds the function can raise: the `TimeoutError` of
line 109 and the `RuntimeError` of line 112, the latter keeping the
original failure text as its cause (`raise ... from e`). -/
inductive AskError : Type where
  | timeoutErr : String → AskError
  | runtimeErr : (message : String) → (cause : String) → AskError
deriving DecidableEq, Repr

/-- What the awaited elicitation can do: time out, raise some other
exception (carried by its message), or return a result value. -/
inductive ChannelOutcome : Type where
  | timeout : ChannelOutcome
  | failure : String → ChannelOutcome
  | success : PyValue → ChannelOutcome

/-- Lines 88-165: the whole tool call. The channel receives the display
prompt and yields one outcome; the embedding then mirrors the two
`except` arms, the extraction, and the resolution. Exactly one channel
request is issued per call (the expression calls `channel` once), so no
retry exists in the model. -/
def askClarification (prompt : String) (choices : List String)
    (channel : String → ChannelOutcome) : Except AskError ClarificationResult :=
  match channel (displayPrompt prompt choices) with
  | ChannelOutcome.timeout =>
      Except.error (AskError.timeoutErr
        "MCP error -32001: Clarification request timed out after 60 seconds")
  | ChannelOutcome.failure msg =>
      Except.error (AskError.runtimeErr ("Elicitation failed: " ++ msg) msg)
  | ChannelOutcome.success result =>
      let answer := extractAnswer result
      Except.ok { question := prompt, answer := resolveAnswer choices answer }

/-- Specification-side rendering of the numbered option lines, written
from the words of the spec (one line per choice, 1-based index, newline
separated) to compare with the source-derived `displayPrompt`. -/
def numberedLines : Nat → List String → String
  | _, [] => ""
  | i, [c] => toString i ++ ") " ++ c
  | i, c :: c2 :: cs => toString i ++ ") " ++ c ++ "\n" ++ numberedLines (i + 1) (c2 :: cs)

/-! ## Helper lemmas -/

/-- Stripping whitespace from both ends is idempotent at the list level. -/
theorem stripList_idem (p : Char → Bool) (l : List Char) :
    List.rdropWhile p (List.dropWhile p (List.rdropWhile p (List.dropWhile p l)))
      = List.rdropWhile p (List.dropWhile p l) := by
  have hself : List.dropWhile p (List.rdropWhile p (List.dropWhile p l))
      = List.rdropWhile p (List.dropWhile p l) := by
    rw [List.dropWhile_eq_self_iff]
    intro hl
    have hpre : List.rdropWhile p (List.dropWhile p l) <+: List.dropWhile p l :=
      List.rdropWhile_prefix p (List.dropWhile p l)
    have hlen : 0 < (List.dropWhile p l).length :=
      lt_of_lt_of_le hl ( List.IsPrefix.length_le hpre)
    have hEq : (List.rdropWhile p (List.dropWhile p l)).get ⟨0, hl⟩
        = (List.dropWhile p l).get ⟨0, hlen⟩ := by
      simp only [List.get_eq_getElem]
      exact List.IsPrefix.getElem hpre hl
    rw [hEq]
    exact List.dropWhile_get_zero_not p l hlen
  rw [hself]
  exact List.rdropWhile_idempotent p (List.dropWhile p l)

/-- `pyStrip` is idempotent. -/
theorem pyStrip_idem (s : String) : pyStrip (pyStrip s) = pyStrip s :=
  congrArg String.mk (stripList_idem isSpace s.data)

/-- Every branch of `extractFromData` ends in a strip, so its output is
already stripped. -/
theorem extractFromData_stripped (d : PyValue) :
    pyStrip (extractFromData d) = extractFromData d := by
  unfold extractFromData
  cases hA : pyGetAttr d "answer" with
  | some a => simp [pyStrip_idem]
  | none =>
    cases d with
    | vdict es =>
        simp only []
        split
        · exact pyStrip_idem _
        · exact pyStrip_idem _
    | vnone => exact pyStrip_idem _
    | vstr s => exact pyStrip_idem _
    | vint n => exact pyStrip_idem _
    | vbool b => exact pyStrip_idem _
    | vobj attrs => simp [pyGetAttr] at hA; simp [pyGetAttr, hA, pyStrip_idem]

/-- Every branch of `extractDirect` ends in a strip. -/
theorem extractDirect_stripped (r : PyValue) :
    pyStrip (extractDirect r) = extractDirect r := by
  unfold extractDirect
  cases hA : pyGetAttr r "answer" with
  | some a => simp [pyStrip_idem]
  | none =>
    cases r with
    | vdict es =>
        simp only []
        split
        · exact pyStrip_idem _
        · exact pyStrip_idem _
    | vnone => exact pyStrip_idem _
    | vstr s => exact pyStrip_idem _
    | vint n => exact pyStrip_idem _
    | vbool b => exact pyStrip_idem _
    | vobj attrs => simp [pyGetAttr] at hA; simp [pyGetAttr, hA, pyStrip_idem]

/-- The extracted answer is always already stripped. -/
theorem extractAnswer_stripped (r : PyValue) :
    pyStrip (extractAnswer r) = extractAnswer r := by
  unfold extractAnswer
  dsimp only
  split
  · exact extractFromData_stripped _
  · exact extractDirect_stripped _

/-- A non-empty list has `isEmpty = false`. -/
theorem isEmpty_false_of_ne {α : Type} (l : List α) (h : l ≠ []) :
    l.isEmpty = false := by
  cases l with
  | nil => exact absurd rfl h
  | cons a t => rfl

/-- `find?` returns the element at the first index whose test holds. -/
theorem find?_eq_some_of_first {α : Type} (q : α → Bool) :
    ∀ (l : List α) (i : Nat) (h : i < l.length),
      q (l.get ⟨i, h⟩) = true →
      (∀ j, (hj : j < i) → q (l.get ⟨j, Nat.lt_trans hj h⟩) = false) →
      l.find? q = some (l.get ⟨i, h⟩) := by
  intro l
  induction l with
  | nil => intro i h; exact absurd h (Nat.not_lt_zero i)
  | cons a t ih =>
    intro i h hq hfirst
    cases i with
    | zero =>
        have : q a = true := hq
        rw [List.find?_cons_of_pos t this]
        rfl
    | succ n =>
        have ha : q a = false := hfirst 0 (Nat.succ_pos n)
        rw [List.find?_cons_of_neg t (by simp [ha])]
        exact ih n (Nat.lt_of_succ_lt_succ h) hq
          (fun j hj => hfirst (j + 1) (Nat.succ_lt_succ hj))

/-- String concatenation is associative. -/
theorem strAppend_assoc (a b c : String) : a ++ b ++ c = a ++ (b ++ c) := by
  cases a with | mk la =>
  cases b with | mk lb =>
  cases c with | mk lc =>
  exact congrArg String.mk (List.append_assoc la lb lc)

/-- The accumulator of `String.intercalate.go` can be split off. -/
theorem intercalate_go_append (sep : String) :
    ∀ (as : List String) (x y : String),
      String.intercalate.go (x ++ y) sep as = x ++ String.intercalate.go y sep as := by
  intro as
  induction as with
  | nil => intro x y; rfl
  | cons a t ih =>
    intro x y
    have h1 : x ++ y ++ sep ++ a = x ++ (y ++ sep ++ a) := by
      rw [strAppend_assoc x y sep, strAppend_assoc x (y ++ sep) a]
    show String.intercalate.go (x ++ y ++ sep ++ a) sep t
        = x ++ String.intercalate.go (y ++ sep ++ a) sep t
    rw [h1]
    exact ih x (y ++ sep ++ a)

/-- Unfolding step of `String.intercalate` on a list with two or more
pieces. -/
theorem intercalate_cons_cons (sep a b : String) (bs : List String) :
    String.intercalate sep (a :: b :: bs) = a ++ sep ++ String.intercalate sep (b :: bs) := by
  show String.intercalate.go a sep (b :: bs) = a ++ sep ++ String.intercalate.go b sep bs
  show String.intercalate.go (a ++ sep ++ b) sep bs = a ++ sep ++ String.intercalate.go b sep bs
  exact intercalate_go_append sep bs (a ++ sep) b

/-- The joined numbered lines of `displayPrompt` agree with the
spec-side renderer `numberedLines`. -/
theorem displayLines_eq_numbered (choices : List String) :
    ∀ (k : Nat),
      String.intercalate "\n"
          ((List.enumFrom k choices).map (fun p => toString (p.1 + 1) ++ ") " ++ p.2))
        = numberedLines (k + 1) choices := by
  induction choices with
  | nil => intro k; rfl
  | cons c cs ih =>
    intro k
    cases cs with
    | nil => rfl
    | cons c2 cs2 =>
      have hmap : (List.enumFrom k (c :: c2 :: cs2)).map
            (fun p => toString (p.1 + 1) ++ ") " ++ p.2)
          = (toString (k + 1) ++ ") " ++ c) ::
              (List.enumFrom (k + 1) (c2 :: cs2)).map
                (fun p => toString (p.1 + 1) ++ ") " ++ p.2) := rfl
      have hmap2 : (List.enumFrom (k + 1) (c2 :: cs2)).map
            (fun p => toString (p.1 + 1) ++ ") " ++ p.2)
          = (toString (k + 1 + 1) ++ ") " ++ c2) ::
              (List.enumFrom (k + 1 + 1) cs2).map
                (fun p => toString (p.1 + 1) ++ ") " ++ p.2) := rfl
      rw [hmap, hmap2, intercalate_cons_cons, ← hmap2, ih (k + 1)]
      rfl

/-- Unfolded form of `resolveAnswer` for a non-empty choice list. -/
theorem resolveAnswer_ne (choices : List String) (answer : String) (hne : choices ≠ []) :
    resolveAnswer choices answer =
      (match resolveNumeric choices (pyStrip answer) with
       | some s => s
       | none =>
         match resolveText choices (pyStrip answer) with
         | some s => s
         | none => answer) := by
  unfold resolveAnswer
  rw [isEmpty_false_of_ne choices hne]
  rfl

/-! ## Claim theorems -/

/-- C1: with a non-empty choice list, when the first whitespace token of
the trimmed answer, after stripping trailing `)` `.` `:` `]`, is all
decimal digits and parses to an index `i` with `1 <= i <= len(choices)`,
the resolved answer is `choices[i-1]`, the original text from the list. -/
theorem numeric_index_resolves (choices : List String) (answer tok : String) (i : Nat)
    (hne : choices ≠ [])
    (htok : firstToken (pyStrip answer) = some tok)
    (hparse : parseIndex (rstripPunct tok) = some i)
    (h1 : 1 ≤ i) (h2 : i ≤ choices.length) :
    resolveAnswer choices answer = choices.get ⟨i - 1, by omega⟩ := by
  have hlt : i - 1 < choices.length := by omega
  have hnum : resolveNumeric choices (pyStrip answer)
      = some (choices.get ⟨i - 1, hlt⟩) := by
    simp only [resolveNumeric, htok, hparse]
    rw [if_pos (And.intro h1 h2)]
    exact List.get?_eq_get hlt
  rw [resolveAnswer_ne choices answer hne, hnum]

/-- C1 witness: `"2)"` against `["dev", "staging", "prod"]` resolves to
`"staging"`. -/
theorem numeric_index_resolves_witness :
    resolveAnswer ["dev", "staging", "prod"] "2)" = "staging" := by
  exact numeric_index_resolves ["dev", "staging", "prod"] "2)" "2)" 2
    (by decide) (by decide) (by decide) (by decide) (by decide)

/-- C10: numeric matching takes strict precedence: whenever the numeric
path selects some choice, that choice is the result, regardless of any
textual match. -/
theorem numeric_precedence (choices : List String) (answer s : String)
    (hne : choices ≠ [])
    (hnum : resolveNumeric choices (pyStrip answer) = some s) :
    resolveAnswer choices answer = s := by
  rw [resolveAnswer_ne choices answer hne, hnum]

/-- C10 witness: `"3"` against `["3", "b", "c"]` resolves numerically to
`"c"` even though the text `"3"` equals the first choice; the textual
path would have returned `"3"`. -/
theorem numeric_precedence_witness :
    resolveAnswer ["3", "b", "c"] "3" = "c"
      ∧ resolveText ["3", "b", "c"] (pyStrip "3") = some "3" := by
  exact ⟨numeric_precedence ["3", "b", "c"] "3" "c" (by decide) (by decide), by decide⟩

/-- C2: with a non-empty choice list and no numeric match, if the choice
at position `i` is the first to compare equal to the full trimmed answer
case-insensitively, the resolved answer is that choice text with its
original casing. -/
theorem text_match_first (choices : List String) (answer : String) (i : Nat)
    (hne : choices ≠ [])
    (hnum : resolveNumeric choices (pyStrip answer) = none)
    (hi : i < choices.length)
    (hmatch : pyLower (pyStrip answer) = pyLower (choices.get ⟨i, hi⟩))
    (hfirst : ∀ j, (hj : j < i) →
      pyLower (pyStrip answer) ≠ pyLower (choices.get ⟨j, Nat.lt_trans hj hi⟩)) :
    resolveAnswer choices answer = choices.get ⟨i, hi⟩ := by
  have htext : resolveText choices (pyStrip answer)
      = some (choices.get ⟨i, hi⟩) := by
    unfold resolveText
    apply find?_eq_some_of_first
    · simpa using hmatch
    · intro j hj
      simpa using hfirst j hj
  rw [resolveAnswer_ne choices answer hne]
  simp only [hnum, htext]

/-- C2 witness: `"PROD"` against `["dev", "staging", "prod"]` resolves to
`"prod"` in the original list casing. -/
theorem text_match_first_witness :
    resolveAnswer ["dev", "staging", "prod"] "PROD" = "prod" := by
  exact text_match_first ["dev", "staging", "prod"] "PROD" 2
    (by decide) (by decide) (by decide) (by decide)
    (by
      intro j hj
      interval_cases j
      · show pyLower (pyStrip "PROD") ≠ pyLower "dev"
        decide
      · show pyLower (pyStrip "PROD") ≠ pyLower "staging"
        decide)

/-- C3: with a non-empty choice list, when the extracted answer matches
neither a valid numeric index nor any choice case-insensitively, the call
returns the extracted answer unchanged, and that answer is its own trim
(extraction always strips); the resolution is a total function, and an
all-whitespace extracted answer simply yields no first token, hence no
numeric match. -/
theorem no_match_returns_raw (prompt : String) (choices : List String) (r : PyValue)
    (hne : choices ≠ [])
    (hnum : resolveNumeric choices (pyStrip (extractAnswer r)) = none)
    (htext : ∀ c ∈ choices, pyLower (pyStrip (extractAnswer r)) ≠ pyLower c) :
    askClarification prompt choices (fun _ => ChannelOutcome.success r)
        = Except.ok { question := prompt, answer := extractAnswer r }
      ∧ pyStrip (extractAnswer r) = extractAnswer r := by
  have hfind : resolveText choices (pyStrip (extractAnswer r)) = none := by
    unfold resolveText
    rw [List.find?_eq_none]
    intro c hc
    simpa using htext c hc
  have hres : resolveAnswer choices (extractAnswer r) = extractAnswer r := by
    rw [resolveAnswer_ne choices (extractAnswer r) hne]
    simp only [hnum, hfind]
  constructor
  · unfold askClarification
    dsimp only
    rw [hres]
  · exact extractAnswer_stripped r

/-- C3 witness: a raw result whose text strips to the empty string, with
choices present, yields the empty string back, unresolved and without
error. -/
theorem no_match_returns_raw_witness :
    askClarification "q" ["dev", "staging", "prod"]
        (fun _ => ChannelOutcome.success (PyValue.vstr " "))
        = Except.ok { question := "q", answer := "" }
      ∧ pyStrip "" = "" := by
  exact no_match_returns_raw "q" ["dev", "staging", "prod"] (PyValue.vstr " ")
    (by decide) (by decide) (by decide)

/-- C4: when the channel times out, the call fails with the
`TimeoutError` carrying the 60-second message, and never with the
`RuntimeError` channel-failure kind; the model issues exactly one channel
request, so no retry exists. -/
theorem timeout_error_surfaced (prompt : String) (choices : List String)
    (channel : String → ChannelOutcome)
    (h : channel (displayPrompt prompt choices) = ChannelOutcome.timeout) :
    askClarification prompt choices channel
        = Except.error (AskError.timeoutErr
            "MCP error -32001: Clarification request timed out after 60 seconds")
      ∧ ∀ m c, askClarification prompt choices channel
          ≠ Except.error (AskError.runtimeErr m c) := by
  have hmain : askClarification prompt choices channel
      = Except.error (AskError.timeoutErr
          "MCP error -32001: Clarification request timed out after 60 seconds") := by
    unfold askClarification
    rw [h]
  refine ⟨hmain, ?_⟩
  intro m c hcontra
  rw [hmain] at hcontra
  simp at hcontra

/-- C4 witness: a channel that never answers produces the timeout error. -/
theorem timeout_error_surfaced_witness :
    askClarification "Pick target latency SLA?" ["fast", "slow"]
        (fun _ => ChannelOutcome.timeout)
      = Except.error (AskError.timeoutErr
          "MCP error -32001: Clarification request timed out after 60 seconds") := by
  exact (timeout_error_surfaced "Pick target latency SLA?" ["fast", "slow"]
    (fun _ => ChannelOutcome.timeout) rfl).1

/-- C7: any non-timeout channel failure is re-raised as a `RuntimeError`
whose message wraps the original text and whose cause is the original
failure. -/
theorem channel_failure_wrapped (prompt : String) (choices : List String)
    (channel : String → ChannelOutcome) (msg : String)
    (h : channel (displayPrompt prompt choices) = ChannelOutcome.failure msg) :
    askClarification prompt choices channel
      = Except.error (AskError.runtimeErr ("Elicitation failed: " ++ msg) msg) := by
  unfold askClarification
  rw [h]

/-- C7 witness: a channel failing with `"boom"` yields the wrapped
runtime error with `"boom"` kept as the cause. -/
theorem channel_failure_wrapped_witness :
    askClarification "q" [] (fun _ => ChannelOutcome.failure "boom")
      = Except.error (AskError.runtimeErr "Elicitation failed: boom" "boom") := by
  exact channel_failure_wrapped "q" [] (fun _ => ChannelOutcome.failure "boom") "boom" rfl

/-- C5: with a non-empty choice list the display prompt is the prompt, a
blank line, the `Options:` header, the numbered choice lines in input
order, and the typing instruction; with an empty (or absent) list it is
the prompt unchanged. -/
theorem display_prompt_layout (prompt : String) (choices : List String) :
    (choices ≠ [] →
      displayPrompt prompt choices
        = prompt ++ "\n\n" ++ "Options:" ++ "\n" ++ numberedLines 1 choices
            ++ "\n" ++ "(Type the value or its number)")
    ∧ displayPrompt prompt [] = prompt := by
  constructor
  · intro hne
    unfold displayPrompt
    rw [isEmpty_false_of_ne choices hne, if_neg Bool.false_ne_true]
    have hN : String.intercalate "\n"
        (choices.enum.map (fun p => toString (p.1 + 1) ++ ") " ++ p.2))
        = numberedLines 1 choices := displayLines_eq_numbered choices 0
    rw [hN]
    have e1 : prompt ++ "\n\n" ++ "Options:" ++ "\n" = prompt ++ "\n\nOptions:\n" := by
      rw [strAppend_assoc (prompt ++ "\n\n") "Options:" "\n",
          strAppend_assoc prompt "\n\n" ("Options:" ++ "\n")]
      have hlit : ("\n\n" : String) ++ ("Options:" ++ "\n") = "\n\nOptions:\n" := by decide
      rw [hlit]
    have e2 : ∀ X : String, X ++ "\n" ++ "(Type the value or its number)"
        = X ++ "\n(Type the value or its number)" := by
      intro X
      rw [strAppend_assoc X "\n" "(Type the value or its number)"]
      have hlit : ("\n" : String) ++ "(Type the value or its number)"
          = "\n(Type the value or its number)" := by decide
      rw [hlit]
    rw [e1, e2]
  · rfl

/-- C5 witness: the layout at a concrete prompt and two choices, and the
unchanged prompt for the empty list. -/
theorem display_prompt_layout_witness :
    displayPrompt "Pick" ["dev", "staging"]
        = "Pick" ++ "\n\n" ++ "Options:" ++ "\n" ++ numberedLines 1 ["dev", "staging"]
            ++ "\n" ++ "(Type the value or its number)"
      ∧ displayPrompt "Pick" [] = "Pick" := by
  exact ⟨(display_prompt_layout "Pick" ["dev", "staging"]).1 (by decide),
    (display_prompt_layout "Pick" []).2⟩

/-- C6: extraction is total. For every response value the call with a
successful channel returns a result (never an error), and in particular
an accepted response whose payload is a bare integer falls back to
converting it to text and trimming. -/
theorem extraction_total (prompt : String) (choices : List String)
    (r : PyValue) (n : Int) :
    (∃ res, askClarification prompt choices (fun _ => ChannelOutcome.success r)
        = Except.ok res)
    ∧ extractAnswer (PyValue.vobj [("action", PyValue.vstr "accept"),
          ("data", PyValue.vint n)])
        = pyStrip (pyStr (PyValue.vint n)) := by
  exact ⟨⟨_, rfl⟩, rfl⟩

/-- C8 counterexample: an accepted response whose mapping payload carries
an `answer` entry equal to the empty string does NOT extract to that
entry trimmed (the empty string); the code falls back to the text of the
whole mapping, because the Python `or` at line 125 discards a falsy
stripped entry. -/
theorem mapping_answer_entry_counterexample :
    extractAnswer (PyValue.vobj [("action", PyValue.vstr "accept"),
        ("data", PyValue.vdict [("answer", PyValue.vstr "")])])
        = "\x7b" ++ squote ++ "answer" ++ squote ++ ": " ++ squote ++ squote ++ "\x7d"
      ∧ extractAnswer (PyValue.vobj [("action", PyValue.vstr "accept"),
          ("data", PyValue.vdict [("answer", PyValue.vstr "")])])
        ≠ pyStrip (pyStr (PyValue.vstr "")) := by
  constructor
  · decide
  · decide

/-- C8 as amended: for an accepted response whose payload is a mapping,
when the mapping has an `answer` entry whose text trims to a non-empty
string the extracted answer is that trimmed text; when the entry is
absent, or its trimmed text is empty, the whole mapping is converted to
text and trimmed. -/
theorem mapping_answer_entry_amended (es : List (String × PyValue)) :
    extractAnswer (PyValue.vobj [("action", PyValue.vstr "accept"),
        ("data", PyValue.vdict es)])
      = (match pyDictGet es "answer" with
         | some v =>
             if (pyStrip (pyStr v)).isEmpty then pyStrip (pyStr (PyValue.vdict es))
             else pyStrip (pyStr v)
         | none => pyStrip (pyStr (PyValue.vdict es))) := by
  show extractFromData (PyValue.vdict es) = _
  cases h : pyDictGet es "answer" with
  | none =>
      simp only [extractFromData, pyGetAttr, h, Option.getD_none]
      have hc : (pyStrip (pyStr (PyValue.vstr ""))).isEmpty = true := rfl
      rw [if_pos hc]
  | some v =>
      simp only [extractFromData, pyGetAttr, h, Option.getD_some]

/-- C9: whatever the channel does, a successful return carries the input
prompt as its `question` field, unmodified, independent of the choices. -/
theorem question_preserved (prompt : String) (choices : List String)
    (channel : String → ChannelOutcome) (res : ClarificationResult)
    (h : askClarification prompt choices channel = Except.ok res) :
    res.question = prompt := by
  unfold askClarification at h
  cases hc : channel (displayPrompt prompt choices) with
  | timeout => rw [hc] at h; cases h
  | failure msg => rw [hc] at h; cases h
  | success r =>
      rw [hc] at h
      dsimp only at h
      cases h
      rfl

/-- C9 witness: a concrete call with choices returns the prompt as the
question. -/
theorem question_preserved_witness :
    ({ question := "q", answer := "staging" } : ClarificationResult).question = "q" := by
  exact question_preserved "q" ["dev", "staging", "prod"]
    (fun _ => ChannelOutcome.success (PyValue.vstr "2)"))
    { question := "q", answer := "staging" } rfl
